import Mathlib

/-!
Shallow embedding of `gemini_chat_app.py`: a Streamlit chat application that
keeps an ordered transcript of turns in `st.session_state.messages`, streams
a model reply chunk by chunk into a placeholder, and folds failures back
into the transcript as a fixed-text assistant turn.

Modelling choices, each tied to the source:
* A stored message is `types.Content(role=..., parts=[types.Part.from_text(...)])`;
  the program only ever reads `parts[0].text`, so `Content` flattens the
  parts list to a single `text` field.
* Streamlit secrets are an `Option String` (the key present or absent);
  `st.stop()` after the error banner is `Except.error` carrying the banner text.
* `st.session_state` before the guard on line 56 is `Option (List Content)`:
  `none` when the key `"messages"` is absent.
* A streamed chunk carries a text that may be falsy (`None` or `""`); both
  are modelled as the empty string, matching `if chunk.text:`.
* One call to `chat.send_message(prompt, stream=True)` is modelled as the
  list of chunks the iterator yields before it stops, plus how it stops:
  normally, by raising `APIError`, or by raising any other exception.
-/

/-- One chat message as stored in `st.session_state.messages`:
`types.Content(role=r, parts=[types.Part.from_text(t)])`, with the
single-element parts list flattened to `text`. -/
structure Content where
  role : String
  text : String
  deriving DecidableEq, Repr

/-- A user turn: `types.Content(role="user", parts=[types.Part.from_text(t)])` (line 72). -/
def user_content (t : String) : Content := ⟨"user", t⟩

/-- An assistant turn: `types.Content(role="model", parts=[types.Part.from_text(t)])`
(lines 58, 95, 101). -/
def model_content (t : String) : Content := ⟨"model", t⟩

/-- The welcome turn seeded at session start (lines 57-59). -/
def welcome_turn : Content :=
  model_content "Hello! I'm StreamlitChat. How can I help you today?"

/-- The banner shown when the key is missing (line 16). -/
def missing_key_error : String :=
  "GEMINI_API_KEY not found. Please set your Gemini API key in Streamlit secrets."

/-- `get_api_key` (lines 9-17): reads `st.secrets["GEMINI_API_KEY"]`; on
`KeyError` it shows `missing_key_error` and stops the script run
(modelled as `Except.error` carrying the displayed banner). -/
def get_api_key (secrets : Option String) : Except String String :=
  match secrets with
  | some key => Except.ok key
  | none => Except.error missing_key_error

/-- Transcript initialisation (lines 56-59): seed the welcome turn only when
`"messages"` is not yet in `st.session_state`. -/
def init_messages (st : Option (List Content)) : List Content :=
  match st with
  | none => [welcome_turn]
  | some msgs => msgs

/-- Role mapping of the display loop (line 64): the exact string `"user"`
maps to the user-styled chat message, everything else to assistant style. -/
def display_role (r : String) : String :=
  if r = "user" then "user" else "assistant"

/-- `render_all` (lines 62-67): one display line `(ui_role, markdown_text)`
per stored message, in transcript order. -/
def render_all (msgs : List Content) : List (String × String) :=
  msgs.map (fun m => (display_role m.role, m.text))

/-- The typing indicator appended while streaming (line 91). -/
def cursor_marker : String := "▌"

/-- The fixed transcript text appended when an `APIError` is caught (line 101). -/
def api_error_turn_text : String := "Sorry, I encountered an API error."

/-- State of one streaming cycle: the transcript
(`st.session_state.messages`), the accumulator `full_response` (line 85) and
the placeholder contents (`st.empty()` on line 87, `none` until the first
`markdown` call writes to it). -/
structure CycleState where
  messages : List Content
  full_response : String
  placeholder : Option String
  deriving DecidableEq, Repr

/-- Body of the streaming loop (lines 88-91): a chunk with truthy text is
appended to `full_response` and the placeholder is rewritten to
`full_response + "▌"`; a chunk with falsy text is skipped entirely. -/
def process_chunk (s : CycleState) (chunk_text : String) : CycleState :=
  if chunk_text = "" then s
  else { s with
          full_response := s.full_response ++ chunk_text,
          placeholder := some (s.full_response ++ chunk_text ++ cursor_marker) }

/-- How one streamed reply ends: the iterator is exhausted normally, raises
`google.genai.errors.APIError` (carrying its message `e`), or raises any
other exception. -/
inductive StreamOutcome where
  | completed
  | api_error (e : String)
  | unexpected_error
  deriving DecidableEq, Repr

/-- Result of handling one submitted prompt: either the handler ran to the
end of the `try`/`except APIError` block (`ok`, with the final transcript,
the final placeholder contents and the `st.error` notice if any), or an
exception escaped the handler uncaught (`raised`, with the transcript as it
stood when the exception propagated). -/
inductive HandleResult where
  | ok (messages : List Content) (placeholder : Option String) (error_notice : Option String)
  | raised (messages : List Content)
  deriving DecidableEq, Repr

/-- Handling of one submitted prompt (lines 70-101): append the user turn,
stream the reply through `process_chunk`, then either finalise the complete
response, catch an `APIError` (show `st.error`, append the fixed-text
assistant turn), or let any other exception propagate uncaught. -/
def handle_user_input (msgs : List Content) (prompt : String)
    (chunks : List String) (outcome : StreamOutcome) : HandleResult :=
  let msgs1 := msgs ++ [user_content prompt]
  let s := List.foldl process_chunk ⟨msgs1, "", none⟩ chunks
  match outcome with
  | StreamOutcome.completed =>
      HandleResult.ok (s.messages ++ [model_content s.full_response])
        (some s.full_response) none
  | StreamOutcome.api_error e =>
      HandleResult.ok (s.messages ++ [model_content api_error_turn_text])
        s.placeholder (some ("An API Error occurred: " ++ e))
  | StreamOutcome.unexpected_error =>
      HandleResult.raised s.messages

/-- The transcript a `HandleResult` leaves in `st.session_state.messages`. -/
def result_messages : HandleResult → List Content
  | HandleResult.ok m _ _ => m
  | HandleResult.raised m => m

/-- One user submission together with how its streamed reply behaves. -/
structure Submission where
  prompt : String
  chunks : List String
  outcome : StreamOutcome
  deriving DecidableEq, Repr

/-- Session-level iteration: Streamlit reruns the script once per input
event, and `st.session_state.messages` persists across runs — including a
run that dies on an uncaught exception (the process itself survives). -/
def process_all (msgs : List Content) : List Submission → List Content
  | [] => msgs
  | sub :: rest => process_all (result_messages
      (handle_user_input msgs sub.prompt sub.chunks sub.outcome)) rest

/-- The assistant turn the handler appends for a submission whose stream
completed (lines 95-96: the concatenated response) or raised an `APIError`
(line 101: the fixed text). A submission ending in `unexpected_error`
appends nothing; that case is excluded by hypothesis wherever this is used. -/
def reply_turn (sub : Submission) : Content :=
  match sub.outcome with
  | StreamOutcome.api_error _ => model_content api_error_turn_text
  | _ => model_content (String.join sub.chunks)

/-- The user/assistant turn pairs a sequence of submissions appends, in
submission order. -/
def expected_turns : List Submission → List Content
  | [] => []
  | sub :: rest => user_content sub.prompt :: reply_turn sub :: expected_turns rest

/-- Number of stored messages with a given role. -/
def count_role (r : String) (msgs : List Content) : Nat :=
  (msgs.filter (fun m => m.role == r)).length

/-- Outcome of session start (lines 43-59): the value of
`st.session_state.messages` afterwards, the configuration error banner if
one was shown, and whether the script proceeded past initialisation to the
display loop and input handling. -/
structure StartResult where
  messages : Option (List Content)
  config_error : Option String
  proceeded : Bool
  deriving DecidableEq, Repr

/-- `main` up to input handling (lines 49-59): if obtaining the session
fails (missing key: `get_api_key` shows the banner and stops, and the bare
`except` returns from `main`), nothing else runs — in particular the
transcript is never touched; otherwise the transcript is initialised and
the script proceeds. -/
def main_start (secrets : Option String) (st : Option (List Content)) : StartResult :=
  match get_api_key secrets with
  | Except.error msg => ⟨st, some msg, false⟩
  | Except.ok _ => ⟨some (init_messages st), none, true⟩

theorem process_chunk_messages (s : CycleState) (c : String) :
    (process_chunk s c).messages = s.messages := by
  by_cases h : c = "" <;> simp [process_chunk, h]

theorem foldl_process_chunk_messages (cs : List String) (s : CycleState) :
    (List.foldl process_chunk s cs).messages = s.messages := by
  induction cs generalizing s with
  | nil => rfl
  | cons c cs ih =>
    rw [List.foldl_cons, ih (process_chunk s c), process_chunk_messages]

theorem string_foldl_append (l : List String) (a : String) :
    List.foldl (· ++ ·) a l = a ++ List.foldl (· ++ ·) "" l := by
  induction l generalizing a with
  | nil => simp
  | cons c l ih =>
    rw [List.foldl_cons, List.foldl_cons, ih (a ++ c), ih ("" ++ c)]
    simp [String.append_assoc]

theorem string_join_cons (c : String) (cs : List String) :
    String.join (c :: cs) = c ++ String.join cs := by
  show List.foldl (· ++ ·) ("" ++ c) cs = c ++ List.foldl (· ++ ·) "" cs
  rw [string_foldl_append cs ("" ++ c)]
  simp

theorem foldl_process_chunk_full (cs : List String) (s : CycleState) :
    (List.foldl process_chunk s cs).full_response =
      s.full_response ++ String.join cs := by
  induction cs generalizing s with
  | nil => simp [String.join]
  | cons c cs ih =>
    rw [List.foldl_cons, ih (process_chunk s c), string_join_cons]
    by_cases h : c = "" <;> simp [process_chunk, h, String.append_assoc]

theorem handle_completed_eq (msgs : List Content) (p : String) (cs : List String) :
    handle_user_input msgs p cs StreamOutcome.completed =
      HandleResult.ok ((msgs ++ [user_content p]) ++ [model_content (String.join cs)])
        (some (String.join cs)) none := by
  simp [handle_user_input, foldl_process_chunk_messages, foldl_process_chunk_full]

theorem handle_api_error_eq (msgs : List Content) (p : String) (cs : List String)
    (e : String) :
    handle_user_input msgs p cs (StreamOutcome.api_error e) =
      HandleResult.ok ((msgs ++ [user_content p]) ++ [model_content api_error_turn_text])
        (List.foldl process_chunk ⟨msgs ++ [user_content p], "", none⟩ cs).placeholder
        (some ("An API Error occurred: " ++ e)) := by
  simp [handle_user_input, foldl_process_chunk_messages]

theorem handle_unexpected_eq (msgs : List Content) (p : String) (cs : List String) :
    handle_user_input msgs p cs StreamOutcome.unexpected_error =
      HandleResult.raised (msgs ++ [user_content p]) := by
  simp [handle_user_input, foldl_process_chunk_messages]

theorem count_role_append (r : String) (a b : List Content) :
    count_role r (a ++ b) = count_role r a + count_role r b := by
  simp [count_role, List.filter_append]

theorem reply_turn_role (sub : Submission) : (reply_turn sub).role = "model" := by
  cases h : sub.outcome <;> simp [reply_turn, h, model_content]

theorem count_expected_user (subs : List Submission) :
    count_role "user" (expected_turns subs) = subs.length := by
  induction subs with
  | nil => rfl
  | cons sub rest ih =>
    have hr : (reply_turn sub).role = "model" := reply_turn_role sub
    simp [expected_turns, count_role, List.filter_cons, user_content, hr] at ih ⊢
    omega

theorem count_expected_model (subs : List Submission) :
    count_role "model" (expected_turns subs) = subs.length := by
  induction subs with
  | nil => rfl
  | cons sub rest ih =>
    have hr : (reply_turn sub).role = "model" := reply_turn_role sub
    simp [expected_turns, count_role, List.filter_cons, user_content, hr] at ih ⊢
    omega

theorem process_all_eq (subs : List Submission) (msgs : List Content)
    (h : ∀ sub ∈ subs, sub.outcome ≠ StreamOutcome.unexpected_error) :
    process_all msgs subs = msgs ++ expected_turns subs := by
  induction subs generalizing msgs with
  | nil => simp [process_all, expected_turns]
  | cons sub rest ih =>
    have hsub : sub.outcome ≠ StreamOutcome.unexpected_error :=
      h sub (List.mem_cons_self sub rest)
    have hrest : ∀ s ∈ rest, s.outcome ≠ StreamOutcome.unexpected_error :=
      fun s hs => h s (List.mem_cons_of_mem sub hs)
    cases ho : sub.outcome with
    | completed =>
      rw [process_all, ho, handle_completed_eq, result_messages, ih _ hrest]
      simp [expected_turns, reply_turn, ho]
    | api_error e =>
      rw [process_all, ho, handle_api_error_eq, result_messages, ih _ hrest]
      simp [expected_turns, reply_turn, ho]
    | unexpected_error => exact absurd ho hsub

theorem string_join_filter (cs : List String) :
    String.join (cs.filter (· != "")) = String.join cs := by
  induction cs with
  | nil => rfl
  | cons c cs ih =>
    by_cases h : c = ""
    · subst h
      simpa [List.filter_cons, string_join_cons] using ih
    · simp [List.filter_cons, h, string_join_cons, ih]

/-- Claim C1 counterexample: a submission whose stream raises a non-API
exception reaches the streaming send yet appends zero ASSISTANT turns — the
transcript ends with a dangling unanswered USER turn, with the model-role
count unchanged — refuting "never zero ... regardless of whether the stream
completes successfully or raises an error". -/
theorem claim_C1_counterexample :
    process_all [welcome_turn] [⟨"x", [], StreamOutcome.unexpected_error⟩] =
      [welcome_turn, user_content "x"] ∧
    count_role "user"
      (process_all [welcome_turn] [⟨"x", [], StreamOutcome.unexpected_error⟩]) = 1 ∧
    count_role "model"
      (process_all [welcome_turn] [⟨"x", [], StreamOutcome.unexpected_error⟩]) =
      count_role "model" [welcome_turn] := by
  decide

/-- Claim C1 (amended): for every sequence of submissions none of which
raises an unexpected (non-API) error, each submission appends exactly one
USER turn followed by exactly one ASSISTANT turn (success text or fixed API
error text), interleaved in submission order; so N such submissions add
exactly N USER and N ASSISTANT turns. -/
theorem claim_C1_theorem (msgs : List Content) (subs : List Submission)
    (h : ∀ sub ∈ subs, sub.outcome ≠ StreamOutcome.unexpected_error) :
    process_all msgs subs = msgs ++ expected_turns subs ∧
    count_role "user" (process_all msgs subs) = count_role "user" msgs + subs.length ∧
    count_role "model" (process_all msgs subs) = count_role "model" msgs + subs.length := by
  have he := process_all_eq subs msgs h
  refine ⟨he, ?_, ?_⟩ <;> rw [he, count_role_append]
  · rw [count_expected_user]
  · rw [count_expected_model]

/-- Claim C1 witness: one successfully streamed submission on top of the
welcome transcript appends exactly one USER and one ASSISTANT turn. -/
theorem claim_C1_witness :
    (∀ sub ∈ ([⟨"hi", ["Hi", "!"], StreamOutcome.completed⟩] : List Submission),
      sub.outcome ≠ StreamOutcome.unexpected_error) ∧
    (process_all [welcome_turn] [⟨"hi", ["Hi", "!"], StreamOutcome.completed⟩] =
        [welcome_turn] ++ expected_turns [⟨"hi", ["Hi", "!"], StreamOutcome.completed⟩] ∧
      count_role "user"
        (process_all [welcome_turn] [⟨"hi", ["Hi", "!"], StreamOutcome.completed⟩]) =
        count_role "user" [welcome_turn] + 1 ∧
      count_role "model"
        (process_all [welcome_turn] [⟨"hi", ["Hi", "!"], StreamOutcome.completed⟩]) =
        count_role "model" [welcome_turn] + 1) :=
  ⟨by decide,
   claim_C1_theorem [welcome_turn] [⟨"hi", ["Hi", "!"], StreamOutcome.completed⟩] (by decide)⟩

/-- Claim C2 counterexample: an unexpected (non-API) error during streaming
is not caught — the handler result is `raised` (the exception propagates out
of the input-handling block) and no ASSISTANT turn is appended, so it does
not take the recovery path of an API-level error. -/
theorem claim_C2_counterexample :
    handle_user_input [welcome_turn] "x" [] StreamOutcome.unexpected_error =
      HandleResult.raised [welcome_turn, user_content "x"] ∧
    count_role "model"
      (result_messages
        (handle_user_input [welcome_turn] "x" [] StreamOutcome.unexpected_error)) =
      count_role "model" [welcome_turn] := by
  decide

/-- Claim C2 (amended): only API-level errors are caught at the point of
invocation: an `APIError` is recovered locally — the raw error goes to the
transient `st.error` notice and a fixed-text ASSISTANT turn is appended, so
the session continues — while an unexpected (non-API) error propagates
uncaught out of the handler, appending no ASSISTANT turn. -/
theorem claim_C2_theorem :
    (∀ (msgs : List Content) (p : String) (cs : List String) (e : String),
      handle_user_input msgs p cs (StreamOutcome.api_error e) =
        HandleResult.ok ((msgs ++ [user_content p]) ++ [model_content api_error_turn_text])
          (List.foldl process_chunk ⟨msgs ++ [user_content p], "", none⟩ cs).placeholder
          (some ("An API Error occurred: " ++ e))) ∧
    (∀ (msgs : List Content) (p : String) (cs : List String),
      handle_user_input msgs p cs StreamOutcome.unexpected_error =
        HandleResult.raised (msgs ++ [user_content p])) :=
  ⟨handle_api_error_eq, handle_unexpected_eq⟩

/-- Claim C3: the transcript component of the streaming state is invariant
under any number of `process_chunk` steps — at every point between the
start of the stream and the finalize, the transcript equals what it was
when streaming began (the assistant turn is appended only at finalize). -/
theorem claim_C3_theorem :
    (∀ (s : CycleState) (cs : List String),
      (List.foldl process_chunk s cs).messages = s.messages) ∧
    (∀ (msgs : List Content) (p : String) (cs : List String),
      (List.foldl process_chunk ⟨msgs ++ [user_content p], "", none⟩ cs).messages =
        msgs ++ [user_content p]) :=
  ⟨fun s cs => foldl_process_chunk_messages cs s,
   fun _ _ cs => foldl_process_chunk_messages cs _⟩

/-- Claim C4: a successfully streamed reply finalizes to an ASSISTANT turn
whose text is exactly the concatenation of the fragments in arrival order;
in particular ["Hel", "lo, ", "world"] finalizes to "Hello, world". -/
theorem claim_C4_theorem :
    (∀ (msgs : List Content) (p : String) (cs : List String),
      handle_user_input msgs p cs StreamOutcome.completed =
        HandleResult.ok ((msgs ++ [user_content p]) ++ [model_content (String.join cs)])
          (some (String.join cs)) none) ∧
    handle_user_input [] "q" ["Hel", "lo, ", "world"] StreamOutcome.completed =
      HandleResult.ok [user_content "q", model_content "Hello, world"]
        (some "Hello, world") none :=
  ⟨handle_completed_eq, by decide⟩

/-- Claim C5: when streaming fails with an API error, the transcript gets a
single ASSISTANT turn with the fixed text "Sorry, I encountered an API
error." — independent of the partially accumulated fragments and of the raw
error message, which only reaches the transient `st.error` notice on the
render surface. -/
theorem claim_C5_theorem :
    (∀ (msgs : List Content) (p : String) (cs : List String) (e : String),
      handle_user_input msgs p cs (StreamOutcome.api_error e) =
        HandleResult.ok ((msgs ++ [user_content p]) ++ [model_content api_error_turn_text])
          (List.foldl process_chunk ⟨msgs ++ [user_content p], "", none⟩ cs).placeholder
          (some ("An API Error occurred: " ++ e))) ∧
    (∀ (msgs : List Content) (p : String) (cs cs' : List String) (e e' : String),
      result_messages (handle_user_input msgs p cs (StreamOutcome.api_error e)) =
        result_messages (handle_user_input msgs p cs' (StreamOutcome.api_error e'))) :=
  ⟨handle_api_error_eq, fun msgs p cs cs' e e' => by
    rw [handle_api_error_eq, handle_api_error_eq]
    rfl⟩

/-- Claim C6: transcript initialisation is idempotent — initialising a
session that already has a transcript leaves it exactly as it is (no
duplicate welcome turn, no altered turn); the welcome turn is seeded only
when no transcript exists. -/
theorem claim_C6_theorem :
    (∀ st : Option (List Content),
      init_messages (some (init_messages st)) = init_messages st) ∧
    (∀ msgs : List Content, init_messages (some msgs) = msgs) ∧
    init_messages none = [welcome_turn] :=
  ⟨fun _ => rfl, fun _ => rfl, rfl⟩

/-- Claim C7: with the API key absent, session start shows the
configuration error, performs no transcript operation (session state is
exactly what it was, no welcome turn seeded), and does not proceed to the
display loop or input handling. -/
theorem claim_C7_theorem (st : Option (List Content)) :
    main_start none st = ⟨st, some missing_key_error, false⟩ ∧
    (main_start none st).messages = st ∧
    (main_start none st).proceeded = false :=
  ⟨rfl, rfl, rfl⟩

/-- Claim C8: every accumulate step on a non-empty fragment renders the
accumulated text so far followed by the cursor marker; on successful
finalize the placeholder shows the accumulated text with the marker
removed and the appended ASSISTANT turn carries that text, the empty
string being the valid final text when zero fragments arrived. -/
theorem claim_C8_theorem :
    (∀ (s : CycleState) (c : String), c ≠ "" →
      process_chunk s c =
        ⟨s.messages, s.full_response ++ c, some (s.full_response ++ c ++ cursor_marker)⟩) ∧
    (∀ (msgs : List Content) (p : String) (cs : List String),
      handle_user_input msgs p cs StreamOutcome.completed =
        HandleResult.ok ((msgs ++ [user_content p]) ++ [model_content (String.join cs)])
          (some (String.join cs)) none) ∧
    (∀ (msgs : List Content) (p : String),
      handle_user_input msgs p [] StreamOutcome.completed =
        HandleResult.ok ((msgs ++ [user_content p]) ++ [model_content ""]) (some "") none) := by
  refine ⟨?_, handle_completed_eq, ?_⟩
  · intro s c hc
    simp [process_chunk, hc]
  · intro msgs p
    have h0 : String.join ([] : List String) = "" := rfl
    rw [handle_completed_eq, h0]

/-- Claim C8 witness: one non-empty fragment on a fresh accumulator renders
the fragment followed by the cursor marker. -/
theorem claim_C8_witness :
    ("Hi" : String) ≠ "" ∧
    process_chunk ⟨[], "", none⟩ "Hi" =
      ⟨[], "" ++ "Hi", some ("" ++ "Hi" ++ cursor_marker)⟩ :=
  ⟨by decide, claim_C8_theorem.1 ⟨[], "", none⟩ "Hi" (by decide)⟩

/-- Claim C9: a chunk with empty (falsy) text is an identity of the
accumulate step — it neither extends the accumulator nor rewrites the
placeholder — so the whole streaming loop, and the finalized reply, depend
only on the non-empty chunks. -/
theorem claim_C9_theorem :
    (∀ s : CycleState, process_chunk s "" = s) ∧
    (∀ (s : CycleState) (cs : List String),
      List.foldl process_chunk s cs = List.foldl process_chunk s (cs.filter (· != ""))) ∧
    (∀ (msgs : List Content) (p : String) (cs : List String),
      handle_user_input msgs p cs StreamOutcome.completed =
        handle_user_input msgs p (cs.filter (· != "")) StreamOutcome.completed) := by
  refine ⟨fun s => by simp [process_chunk], ?_, ?_⟩
  · intro s cs
    induction cs generalizing s with
    | nil => rfl
    | cons c cs ih =>
      by_cases h : c = ""
      · subst h
        rw [List.foldl_cons]
        simpa [List.filter_cons, process_chunk] using ih s
      · have hf : (c :: cs).filter (· != "") = c :: cs.filter (· != "") := by
          simp [List.filter_cons, h]
        rw [hf, List.foldl_cons, List.foldl_cons, ih]
  · intro msgs p cs
    rw [handle_completed_eq, handle_completed_eq, string_join_filter]

/-- Claim C10: every assistant-side turn (welcome, reply, error) is stored
with role "model", and rendering maps any turn whose role is not exactly
"user" — "model" included — to an assistant-styled line, while exactly the
role "user" renders as a user line. -/
theorem claim_C10_theorem :
    welcome_turn.role = "model" ∧
    (∀ t : String, (model_content t).role = "model") ∧
    (∀ m : Content, m.role ≠ "user" → render_all [m] = [("assistant", m.text)]) ∧
    (∀ t : String, render_all [user_content t] = [("user", t)]) := by
  refine ⟨rfl, fun _ => rfl, ?_, fun t => ?_⟩
  · intro m hm
    simp [render_all, display_role, hm]
  · simp [render_all, display_role, user_content]

/-- Claim C10 witness: a stored turn with role "model" renders as an
assistant-styled line. -/
theorem claim_C10_witness :
    (("model" : String) ≠ "user") ∧
    render_all [(⟨"model", "z"⟩ : Content)] =
      [("assistant", (⟨"model", "z"⟩ : Content).text)] :=
  ⟨by decide, claim_C10_theorem.2.2.1 ⟨"model", "z"⟩ (by decide)⟩
